import Mathlib

/-!
Formal model of the skillbuddy marketplace backend (Django): the booking
state machine, the payment/credits flows and the review aggregation, as
implemented in services/views.py, services/stripe_views.py and
services/models.py.  Monetary amounts (DecimalField values) are modelled
as exact rationals; Python Decimal division (28 significant digits,
ROUND_HALF_EVEN, the default context) is modelled by pyDecDiv; credit
amounts (IntegerField) are integers.  Each view function becomes a pure
function from an explicit state to a result paired with the new state;
an error result is paired with the unchanged state, which is faithful to
the source because every error return in these views happens before the
first database write.
-/

/-- Booking.BOOKING_STATUS (services/models.py). -/
inductive BookingStatus where
  | pending
  | confirmed
  | ongoing
  | completed
  | cancelled
deriving DecidableEq, Repr

/-- Booking.PAYMENT_METHODS (services/models.py). -/
inductive PaymentMethod where
  | card
  | paypal
  | credits
  | cash
deriving DecidableEq, Repr

/-- Payment.PAYMENT_STATUS (services/models.py). -/
inductive PaymentStatus where
  | pending
  | processing
  | completed
  | failed
  | refunded
deriving DecidableEq, Repr

/-- Payment.PAYMENT_TYPE (services/models.py). -/
inductive PaymentType where
  | immediate
  | later
  | installment
  | credits
deriving DecidableEq, Repr

/-- Installment.INSTALLMENT_STATUS (services/models.py). -/
inductive InstallmentStatus where
  | pending
  | paid
  | overdue
  | cancelled
deriving DecidableEq, Repr

/-- UserCredits.TRANSACTION_TYPE (services/models.py). -/
inductive TransactionType where
  | purchase
  | earned
  | used
  | refund
  | bonus
deriving DecidableEq, Repr

/-- A Booking row (services/models.py), restricted to the fields the core
flows read or write.  creditsRequired inlines booking.service.credits_required
(a PositiveIntegerField of the linked Service row). -/
structure BookingRec where
  status : BookingStatus
  totalAmount : ℚ
  paymentMethod : PaymentMethod
  isPaid : Bool
  creditsRequired : ℕ
deriving DecidableEq, Repr

/-- A Payment row (services/models.py).  gatewayResponse keeps only the
payment-intent id of the free-form JSON blob stored by the code. -/
structure PaymentRec where
  bookingId : ℕ
  amount : ℚ
  paymentType : PaymentType
  paymentMethod : PaymentMethod
  status : PaymentStatus
  transactionId : String
  gatewayResponse : String
deriving DecidableEq, Repr

/-- An Installment row (services/models.py).  dueDays models
due_date = today + 30*(i+1) days as the day offset from the request date. -/
structure InstallmentRec where
  installmentNumber : ℕ
  amount : ℚ
  dueDays : ℕ
  status : InstallmentStatus
deriving DecidableEq, Repr

/-- A UserCredits row (services/models.py) for one fixed user: signed
amount, transaction type and the balance_after snapshot. -/
structure CreditRow where
  amount : ℤ
  transactionType : TransactionType
  balanceAfter : ℤ
deriving DecidableEq, Repr

/-- A ProviderProfile row (services/models.py), restricted to the derived
aggregates. -/
structure ProviderProfileRec where
  rating : ℚ
  totalEarnings : ℚ
  jobsCompleted : ℕ
deriving DecidableEq, Repr

/-- UserCredits.objects.filter(user=u).aggregate(total=Sum('amount'))['total'] or 0:
the user's credit balance as computed by the views. -/
def ledgerBalance (l : List CreditRow) : ℤ :=
  (l.map (fun r => r.amount)).sum

/-- Decimal digit count of a natural number (0 for 0), by fuelled recursion
so that it reduces definitionally. -/
def digitsAux : ℕ → ℕ → ℕ
  | 0, _ => 0
  | fuel + 1, n => if n = 0 then 0 else digitsAux fuel (n / 10) + 1

/-- Number of decimal digits of n (digits10 0 = 0). -/
def digits10 (n : ℕ) : ℕ :=
  digitsAux n n

/-- Round a rational to the nearest integer, ties to even
(Python/IEEE ROUND_HALF_EVEN). -/
def roundHalfEven (q : ℚ) : ℤ :=
  let f := ⌊q⌋
  let r := q - f
  if r < 1 / 2 then f
  else if 1 / 2 < r then f + 1
  else if f % 2 = 0 then f else f + 1

/-- Adjusted decimal exponent of the nonzero quotient a / b: the unique e
with 10 ^ (e-1) <= |a / b| < 10 ^ e, located from the digit counts of an
unreduced numerator and denominator of the quotient. -/
def decExp (a b : ℚ) : ℤ :=
  if |a / b| <
      (10 : ℚ) ^ ((digits10 (a.num * (b.den : ℤ)).natAbs : ℤ) -
        (digits10 ((a.den : ℤ) * b.num).natAbs : ℤ)) then
    (digits10 (a.num * (b.den : ℤ)).natAbs : ℤ) - (digits10 ((a.den : ℤ) * b.num).natAbs : ℤ)
  else
    (digits10 (a.num * (b.den : ℤ)).natAbs : ℤ) - (digits10 ((a.den : ℤ) * b.num).natAbs : ℤ) + 1

/-- Python decimal.Decimal division under the default context: the exact
quotient a / b rounded to 28 significant decimal digits, ROUND_HALF_EVEN,
i.e. keeping 28 - decExp a b fractional digits. -/
def pyDecDiv (a b : ℚ) : ℚ :=
  if a = 0 ∨ b = 0 then 0
  else
    (roundHalfEven (a / b * (10 : ℚ) ^ (28 - decExp a b)) : ℚ) / (10 : ℚ) ^ (28 - decExp a b)

/-- Python round(x, 2), ties to even, on exact rationals. -/
def roundTo2 (q : ℚ) : ℚ :=
  (roundHalfEven (q * 100) : ℚ) / 100

/-- Error responses of update_booking_status_view / accept_job_view /
decline_job_view / cancel_booking_view (services/views.py). -/
inductive BookingError where
  | invalidStatus
  | notPending
  | cannotCancel
deriving DecidableEq, Repr

/-- State touched by update_booking_status_view: the booking and the
provider's ProviderProfile row. -/
structure ProviderState where
  booking : BookingRec
  profile : ProviderProfileRec
deriving DecidableEq, Repr

/-- update_booking_status_view (services/views.py, lines 155-182): sets
booking.status to the requested status (any member of BOOKING_STATUS is
accepted; membership is enforced by the type here), and when the new
status is completed increments jobs_completed and adds total_amount to
total_earnings.  The source checks no precondition on the current
status. -/
def update_booking_status_view (s : ProviderState) (newStatus : BookingStatus) : ProviderState :=
  let booking := { s.booking with status := newStatus }
  let profile :=
    if newStatus = BookingStatus.completed then
      { s.profile with
          jobsCompleted := s.profile.jobsCompleted + 1,
          totalEarnings := s.profile.totalEarnings + s.booking.totalAmount }
    else s.profile
  { booking := booking, profile := profile }

/-- accept_job_view (services/views.py, lines 344-363): pending bookings
become confirmed, anything else is rejected. -/
def accept_job_view (s : ProviderState) : Except BookingError Unit × ProviderState :=
  if s.booking.status = BookingStatus.pending then
    (Except.ok (), { s with booking := { s.booking with status := BookingStatus.confirmed } })
  else
    (Except.error BookingError.notPending, s)

/-- Error responses of process_payment_view (services/views.py). -/
inductive PayError where
  | alreadyPaid
  | insufficientCredits
deriving DecidableEq, Repr

/-- Validated body of a payment request (PaymentProcessSerializer,
services/serializers.py): installmentCount, when present, passed the
2..12 range validation.  txnId stands for the timestamp-based
transaction id string the gateway branch generates. -/
structure PayReq where
  paymentType : PaymentType
  paymentMethod : PaymentMethod
  installmentCount : Option ℕ
  txnId : String
deriving DecidableEq, Repr

/-- Database state touched by the payment and cancellation views: one
booking (with id bookingId), the customer's credit ledger and the
booking's Payment and Installment rows. -/
structure PayState where
  bookingId : ℕ
  booking : BookingRec
  ledger : List CreditRow
  payments : List PaymentRec
  installments : List InstallmentRec
deriving DecidableEq, Repr

/-- process_payment_view (services/views.py, lines 403-499).  Branch
order as in the source: the already-paid check first, then the credits
path (chosen on payment_method, regardless of payment_type), then the
installment path (default count 3), then the gateway path (completed for
immediate, pending for later; only immediate marks the booking paid). -/
def process_payment_view (st : PayState) (req : PayReq) : Except PayError Unit × PayState :=
  if st.booking.isPaid then
    (Except.error PayError.alreadyPaid, st)
  else if req.paymentMethod = PaymentMethod.credits then
    let bal := ledgerBalance st.ledger
    if bal < (st.booking.creditsRequired : ℤ) then
      (Except.error PayError.insufficientCredits, st)
    else
      let row : CreditRow :=
        { amount := -(st.booking.creditsRequired : ℤ),
          transactionType := TransactionType.used,
          balanceAfter := bal - (st.booking.creditsRequired : ℤ) }
      let payment : PaymentRec :=
        { bookingId := st.bookingId,
          amount := st.booking.totalAmount,
          paymentType := req.paymentType,
          paymentMethod := req.paymentMethod,
          status := PaymentStatus.completed,
          transactionId := "",
          gatewayResponse := "" }
      (Except.ok (),
        { st with
            ledger := st.ledger ++ [row],
            payments := st.payments ++ [payment],
            booking := { st.booking with isPaid := true } })
  else if req.paymentType = PaymentType.installment then
    let count := req.installmentCount.getD 3
    let instAmount := pyDecDiv st.booking.totalAmount (count : ℚ)
    let payment : PaymentRec :=
      { bookingId := st.bookingId,
        amount := st.booking.totalAmount,
        paymentType := req.paymentType,
        paymentMethod := req.paymentMethod,
        status := PaymentStatus.processing,
        transactionId := "",
        gatewayResponse := "" }
    let rows := (List.range count).map (fun i =>
      ({ installmentNumber := i + 1,
         amount := instAmount,
         dueDays := 30 * (i + 1),
         status := InstallmentStatus.pending } : InstallmentRec))
    (Except.ok (),
      { st with
          payments := st.payments ++ [payment],
          installments := st.installments ++ rows })
  else
    let completed := req.paymentType = PaymentType.immediate
    let payment : PaymentRec :=
      { bookingId := st.bookingId,
        amount := st.booking.totalAmount,
        paymentType := req.paymentType,
        paymentMethod := req.paymentMethod,
        status := if completed then PaymentStatus.completed else PaymentStatus.pending,
        transactionId := req.txnId,
        gatewayResponse := "" }
    let booking :=
      if completed then { st.booking with isPaid := true } else st.booking
    (Except.ok (), { st with payments := st.payments ++ [payment], booking := booking })

/-- purchase_credits_view (services/views.py, lines 528-550): rejects a
missing, zero or non-positive amount, otherwise appends a purchase row
whose balance_after snapshots the prior Sum('amount') plus the amount. -/
def purchase_credits_view (l : List CreditRow) (amount : ℤ) : Except Unit Unit × List CreditRow :=
  if amount = 0 ∨ amount ≤ 0 then
    (Except.error (), l)
  else
    (Except.ok (),
      l ++ [{ amount := amount,
              transactionType := TransactionType.purchase,
              balanceAfter := ledgerBalance l + amount }])

/-- cancel_booking_view (services/views.py, lines 300-341): rejects
completed or cancelled bookings; otherwise sets the status to cancelled
and, when the booking was paid with credits, appends a refund ledger row
of service.credits_required with balance_after snapshotting the prior
Sum('amount') plus the refund.  Payments, installments and is_paid are
not touched. -/
def cancel_booking_view (st : PayState) : Except BookingError Unit × PayState :=
  if st.booking.status = BookingStatus.completed ∨ st.booking.status = BookingStatus.cancelled then
    (Except.error BookingError.cannotCancel, st)
  else
    let booking := { st.booking with status := BookingStatus.cancelled }
    let ledger :=
      if st.booking.paymentMethod = PaymentMethod.credits ∧ st.booking.isPaid then
        st.ledger ++
          [{ amount := (st.booking.creditsRequired : ℤ),
             transactionType := TransactionType.refund,
             balanceAfter := ledgerBalance st.ledger + (st.booking.creditsRequired : ℤ) }]
      else st.ledger
    (Except.ok (), { st with booking := booking, ledger := ledger })

/-- Error responses of refund_payment_view (services/views.py) and
create_refund (services/stripe_views.py).  alreadyRefunded is the
response string "Payment already refunded"; onlyCompleted covers the
"Only completed payments can be refunded" / "Can only refund completed
payments" responses; gatewayError is a failed StripeService.create_refund
call. -/
inductive RefundError where
  | alreadyRefunded
  | onlyCompleted
  | gatewayError
deriving DecidableEq, Repr

/-- refund_payment_view (services/views.py, lines 837-872), acting on a
payment and its booking: an already refunded payment is rejected with
alreadyRefunded, any other non-completed payment with onlyCompleted;
otherwise the payment becomes refunded and the booking cancelled. -/
def refund_payment_view (p : PaymentRec) (b : BookingRec) :
    Except RefundError Unit × PaymentRec × BookingRec :=
  if p.status = PaymentStatus.refunded then
    (Except.error RefundError.alreadyRefunded, p, b)
  else if p.status ≠ PaymentStatus.completed then
    (Except.error RefundError.onlyCompleted, p, b)
  else
    (Except.ok (),
      { p with status := PaymentStatus.refunded },
      { b with status := BookingStatus.cancelled })

/-- create_refund (services/stripe_views.py, lines 221-297), acting on a
payment and its booking; gatewayOk is the success flag of the
StripeService.create_refund call.  The source checks
status != completed before status == refunded, so the already-refunded
branch is unreachable: a refunded payment is rejected with
onlyCompleted. -/
def create_refund (p : PaymentRec) (b : BookingRec) (gatewayOk : Bool) :
    Except RefundError Unit × PaymentRec × BookingRec :=
  if p.status ≠ PaymentStatus.completed then
    (Except.error RefundError.onlyCompleted, p, b)
  else if p.status = PaymentStatus.refunded then
    (Except.error RefundError.alreadyRefunded, p, b)
  else if ¬gatewayOk then
    (Except.error RefundError.gatewayError, p, b)
  else
    (Except.ok (),
      { p with status := PaymentStatus.refunded },
      { b with status := BookingStatus.cancelled })

/-- Database state seen by the Stripe webhook handlers: all Payment rows
and the Booking rows they reference, keyed by booking id. -/
structure GatewayState where
  payments : List PaymentRec
  bookings : List (ℕ × BookingRec)
deriving DecidableEq, Repr

/-- Replace the booking stored under id i by f applied to it. -/
def updateBooking (bs : List (ℕ × BookingRec)) (i : ℕ) (f : BookingRec → BookingRec) :
    List (ℕ × BookingRec) :=
  bs.map (fun kb => if kb.1 = i then (kb.1, f kb.2) else kb)

/-- Payment rows matching a transaction id. -/
def matchingPayments (st : GatewayState) (intentId : String) : List PaymentRec :=
  st.payments.filter (fun p => p.transactionId = intentId)

/-- The payment writes of _handle_payment_intent_succeeded: a payment
matching the intent id becomes completed and records the payload. -/
def markCompleted (intentId : String) (q : PaymentRec) : PaymentRec :=
  if q.transactionId = intentId then
    { q with status := PaymentStatus.completed, gatewayResponse := intentId }
  else q

/-- The booking writes of _handle_payment_intent_succeeded: paid and
confirmed, whatever the previous status. -/
def confirmPaid (b : BookingRec) : BookingRec :=
  { b with isPaid := true, status := BookingStatus.confirmed }

/-- The handler _handle_payment_intent_succeeded (services/stripe_views.py,
lines 537-554): Payment.objects.get(transaction_id=...) succeeds exactly
when one payment matches (DoesNotExist is swallowed; MultipleObjectsReturned
propagates to the webhook wrapper before any write, so in both anomaly
cases the state is unchanged).  On the unique match it sets the payment
to completed, records the gateway payload, and unconditionally marks the
payment's booking paid and confirmed. -/
def handle_payment_intent_succeeded (st : GatewayState) (intentId : String) : GatewayState :=
  match (matchingPayments st intentId).head? with
  | none => st
  | some p =>
    if (matchingPayments st intentId).length = 1 then
      { payments := st.payments.map (markCompleted intentId),
        bookings := updateBooking st.bookings p.bookingId confirmPaid }
    else st

/-- Error responses of create_booking_review_view (services/views.py). -/
inductive ReviewError where
  | bookingNotCompleted
  | duplicateReview
  | invalidRating
deriving DecidableEq, Repr

/-- State touched by create_booking_review_view: the booking being
reviewed, whether a review for it already exists, the ratings of all
reviews of the provider's services (the set Review.objects.filter(
service__provider=provider) aggregated by update_rating; the booking's
service belongs to its provider, BookingSerializer.create), and the
provider's profile. -/
structure ReviewState where
  booking : BookingRec
  hasReview : Bool
  providerRatings : List ℤ
  profile : ProviderProfileRec
deriving DecidableEq, Repr

/-- ProviderProfile.update_rating (services/models.py, lines 48-54):
when the provider's services have at least one review, set rating to the
average of their ratings rounded to 2 decimals; otherwise do nothing. -/
def update_rating (profile : ProviderProfileRec) (ratings : List ℤ) : ProviderProfileRec :=
  if ratings = [] then profile
  else { profile with rating := roundTo2 ((ratings.sum : ℚ) / (ratings.length : ℚ)) }

/-- create_booking_review_view (services/views.py, lines 202-256):
rejects a booking that is not completed, then an already reviewed
booking, then a missing or out-of-range rating; otherwise inserts the
review and recomputes the provider rating over the enlarged review
set. -/
def create_booking_review_view (st : ReviewState) (rating : ℤ) :
    Except ReviewError Unit × ReviewState :=
  if st.booking.status ≠ BookingStatus.completed then
    (Except.error ReviewError.bookingNotCompleted, st)
  else if st.hasReview then
    (Except.error ReviewError.duplicateReview, st)
  else if rating = 0 ∨ ¬(1 ≤ rating ∧ rating ≤ 5) then
    (Except.error ReviewError.invalidRating, st)
  else
    let ratings := st.providerRatings ++ [rating]
    (Except.ok (),
      { st with
          hasReview := true,
          providerRatings := ratings,
          profile := update_rating st.profile ratings })

/-- One request against the credit ledger, as issued by the three code
paths that append UserCredits rows: a credits purchase, a payment
request, or a booking cancellation. -/
inductive LedgerOp where
  | purchase (amount : ℤ)
  | pay (req : PayReq)
  | cancel
deriving DecidableEq, Repr

/-- Run one request through the corresponding view. -/
def applyOp (st : PayState) : LedgerOp → PayState
  | LedgerOp.purchase a => { st with ledger := (purchase_credits_view st.ledger a).2 }
  | LedgerOp.pay req => (process_payment_view st req).2
  | LedgerOp.cancel => (cancel_booking_view st).2

/-- Run a sequence of requests. -/
def applyOps (st : PayState) (ops : List LedgerOp) : PayState :=
  ops.foldl applyOp st

/-- The ledger invariant of the spec: every stored balance_after equals
the prefix sum of the amounts up to and including its row. -/
def ledgerInv (l : List CreditRow) : Prop :=
  ∀ i : Fin l.length, (l.get i).balanceAfter = ((l.take (i + 1)).map (fun r => r.amount)).sum

/-- Successful credits branch of process_payment_view, as one equation:
shared compute lemma for the payment and cancellation results. -/
theorem process_payment_credits_ok (st : PayState) (req : PayReq)
    (hm : req.paymentMethod = PaymentMethod.credits)
    (hp : st.booking.isPaid = false)
    (hb : (st.booking.creditsRequired : ℤ) ≤ ledgerBalance st.ledger) :
    process_payment_view st req =
      (Except.ok (),
        { st with
            ledger := st.ledger ++
              [{ amount := -(st.booking.creditsRequired : ℤ),
                 transactionType := TransactionType.used,
                 balanceAfter := ledgerBalance st.ledger - (st.booking.creditsRequired : ℤ) }],
            payments := st.payments ++
              [{ bookingId := st.bookingId,
                 amount := st.booking.totalAmount,
                 paymentType := req.paymentType,
                 paymentMethod := req.paymentMethod,
                 status := PaymentStatus.completed,
                 transactionId := "",
                 gatewayResponse := "" }],
            booking := { st.booking with isPaid := true } }) := by
  simp [process_payment_view, hm, hp, not_lt.mpr hb]

/-- C3: a credits payment on an unpaid booking whose customer balance is
below the service's credits_required fails with InsufficientCredits and
leaves the ledger, the booking (is_paid and status included) and the
Payment and Installment tables unchanged. -/
theorem insufficient_credits_rejected (st : PayState) (req : PayReq)
    (hm : req.paymentMethod = PaymentMethod.credits)
    (hp : st.booking.isPaid = false)
    (hb : ledgerBalance st.ledger < (st.booking.creditsRequired : ℤ)) :
    process_payment_view st req = (Except.error PayError.insufficientCredits, st) := by
  simp [process_payment_view, hm, hp, hb]

/-- Witness for insufficient_credits_rejected: a concrete unpaid booking
requiring 10 credits against an empty ledger. -/
theorem insufficient_credits_rejected_witness :
    process_payment_view
      { bookingId := 1,
        booking := { status := BookingStatus.pending, totalAmount := 40,
                     paymentMethod := PaymentMethod.credits, isPaid := false,
                     creditsRequired := 10 },
        ledger := [], payments := [], installments := [] }
      { paymentType := PaymentType.immediate, paymentMethod := PaymentMethod.credits,
        installmentCount := none, txnId := "t" } =
    (Except.error PayError.insufficientCredits,
      { bookingId := 1,
        booking := { status := BookingStatus.pending, totalAmount := 40,
                     paymentMethod := PaymentMethod.credits, isPaid := false,
                     creditsRequired := 10 },
        ledger := [], payments := [], installments := [] }) :=
  insufficient_credits_rejected _ _ rfl rfl (by norm_num [ledgerBalance])

/-- C4: a credits payment on an unpaid booking with sufficient balance
performs exactly the three writes, together: it appends a used ledger row
of amount -credits_required with balance_after = balance - credits_required,
appends a completed Payment, and marks the booking paid; the resulting
state is determined, so no outcome applies only some of the writes. -/
theorem credits_payment_atomic (st : PayState) (req : PayReq)
    (hm : req.paymentMethod = PaymentMethod.credits)
    (hp : st.booking.isPaid = false)
    (hb : (st.booking.creditsRequired : ℤ) ≤ ledgerBalance st.ledger) :
    process_payment_view st req =
      (Except.ok (),
        { st with
            ledger := st.ledger ++
              [{ amount := -(st.booking.creditsRequired : ℤ),
                 transactionType := TransactionType.used,
                 balanceAfter := ledgerBalance st.ledger - (st.booking.creditsRequired : ℤ) }],
            payments := st.payments ++
              [{ bookingId := st.bookingId,
                 amount := st.booking.totalAmount,
                 paymentType := req.paymentType,
                 paymentMethod := req.paymentMethod,
                 status := PaymentStatus.completed,
                 transactionId := "",
                 gatewayResponse := "" }],
            booking := { st.booking with isPaid := true } }) :=
  process_payment_credits_ok st req hm hp hb

/-- Witness for credits_payment_atomic: a concrete unpaid booking
requiring 10 credits against a ledger holding a 25-credit purchase. -/
theorem credits_payment_atomic_witness :
    process_payment_view
      { bookingId := 1,
        booking := { status := BookingStatus.pending, totalAmount := 40,
                     paymentMethod := PaymentMethod.credits, isPaid := false,
                     creditsRequired := 10 },
        ledger := [{ amount := 25, transactionType := TransactionType.purchase,
                     balanceAfter := 25 }],
        payments := [], installments := [] }
      { paymentType := PaymentType.immediate, paymentMethod := PaymentMethod.credits,
        installmentCount := none, txnId := "t" } =
    (Except.ok (),
      { bookingId := 1,
        booking := { status := BookingStatus.pending, totalAmount := 40,
                     paymentMethod := PaymentMethod.credits, isPaid := true,
                     creditsRequired := 10 },
        ledger := [{ amount := 25, transactionType := TransactionType.purchase,
                     balanceAfter := 25 },
                   { amount := -10, transactionType := TransactionType.used,
                     balanceAfter := 15 }],
        payments := [{ bookingId := 1, amount := 40,
                       paymentType := PaymentType.immediate,
                       paymentMethod := PaymentMethod.credits,
                       status := PaymentStatus.completed,
                       transactionId := "", gatewayResponse := "" }],
        installments := [] }) := by
  have h := credits_payment_atomic
    { bookingId := 1,
      booking := { status := BookingStatus.pending, totalAmount := 40,
                   paymentMethod := PaymentMethod.credits, isPaid := false,
                   creditsRequired := 10 },
      ledger := [{ amount := 25, transactionType := TransactionType.purchase,
                   balanceAfter := 25 }],
      payments := [], installments := [] }
    { paymentType := PaymentType.immediate, paymentMethod := PaymentMethod.credits,
      installmentCount := none, txnId := "t" }
    rfl rfl (by norm_num [ledgerBalance])
  simpa [ledgerBalance] using h

/-- C9: cancelling requires a status that is neither completed nor
cancelled and transitions the booking to cancelled; when the booking was
paid with credits, exactly one refund ledger row of amount
credits_required is appended, and in the pay-with-credits-then-cancel
scenario the resulting balance equals the balance before the debit. -/
theorem cancel_booking_spec (st : PayState) :
    (st.booking.status = BookingStatus.completed ∨ st.booking.status = BookingStatus.cancelled →
      cancel_booking_view st = (Except.error BookingError.cannotCancel, st)) ∧
    (¬(st.booking.status = BookingStatus.completed ∨ st.booking.status = BookingStatus.cancelled) →
      (cancel_booking_view st).1 = Except.ok () ∧
      (cancel_booking_view st).2.booking.status = BookingStatus.cancelled ∧
      (st.booking.paymentMethod = PaymentMethod.credits ∧ st.booking.isPaid = true →
        (cancel_booking_view st).2.ledger = st.ledger ++
          [{ amount := (st.booking.creditsRequired : ℤ),
             transactionType := TransactionType.refund,
             balanceAfter := ledgerBalance st.ledger + (st.booking.creditsRequired : ℤ) }]) ∧
      (¬(st.booking.paymentMethod = PaymentMethod.credits ∧ st.booking.isPaid = true) →
        (cancel_booking_view st).2.ledger = st.ledger)) ∧
    (∀ req : PayReq,
      req.paymentMethod = PaymentMethod.credits →
      st.booking.paymentMethod = PaymentMethod.credits →
      st.booking.isPaid = false →
      (st.booking.creditsRequired : ℤ) ≤ ledgerBalance st.ledger →
      ¬(st.booking.status = BookingStatus.completed ∨ st.booking.status = BookingStatus.cancelled) →
      ledgerBalance (cancel_booking_view (process_payment_view st req).2).2.ledger =
        ledgerBalance st.ledger) := by
  refine ⟨fun h => by simp [cancel_booking_view, h], fun h => ?_, fun req hm hbm hp hb hs => ?_⟩
  · refine ⟨by simp [cancel_booking_view, h], by simp [cancel_booking_view, h], fun hc => ?_,
      fun hc => ?_⟩
    · simp [cancel_booking_view, h, hc.1, hc.2]
    · simp only [cancel_booking_view, if_neg h]
      rw [if_neg hc]
  · rw [process_payment_credits_ok st req hm hp hb]
    simp only [cancel_booking_view]
    rw [if_neg (by simpa using hs)]
    simp [hbm, ledgerBalance]

/-- Witness for cancel_booking_spec: a pending, paid, credits booking with
a 25-credit ledger; cancelling appends the 10-credit refund row, and the
round trip through a credits payment restores the balance. -/
theorem cancel_booking_spec_witness :
    (cancel_booking_view
        { bookingId := 1,
          booking := { status := BookingStatus.pending, totalAmount := 40,
                       paymentMethod := PaymentMethod.credits, isPaid := true,
                       creditsRequired := 10 },
          ledger := [{ amount := 25, transactionType := TransactionType.purchase,
                       balanceAfter := 25 }],
          payments := [], installments := [] }).2.ledger =
      [{ amount := 25, transactionType := TransactionType.purchase, balanceAfter := 25 },
       { amount := 10, transactionType := TransactionType.refund, balanceAfter := 35 }] ∧
    ledgerBalance
      (cancel_booking_view
        (process_payment_view
          { bookingId := 1,
            booking := { status := BookingStatus.pending, totalAmount := 40,
                         paymentMethod := PaymentMethod.credits, isPaid := false,
                         creditsRequired := 10 },
            ledger := [{ amount := 25, transactionType := TransactionType.purchase,
                         balanceAfter := 25 }],
            payments := [], installments := [] }
          { paymentType := PaymentType.immediate, paymentMethod := PaymentMethod.credits,
            installmentCount := none, txnId := "t" }).2).2.ledger = 25 := by
  constructor
  · have h := (cancel_booking_spec
      { bookingId := 1,
        booking := { status := BookingStatus.pending, totalAmount := 40,
                     paymentMethod := PaymentMethod.credits, isPaid := true,
                     creditsRequired := 10 },
        ledger := [{ amount := 25, transactionType := TransactionType.purchase,
                     balanceAfter := 25 }],
        payments := [], installments := [] }).2.1 (by simp)
    have h2 := h.2.2.1 ⟨rfl, rfl⟩
    simpa [ledgerBalance] using h2
  · have h := (cancel_booking_spec
      { bookingId := 1,
        booking := { status := BookingStatus.pending, totalAmount := 40,
                     paymentMethod := PaymentMethod.credits, isPaid := false,
                     creditsRequired := 10 },
        ledger := [{ amount := 25, transactionType := TransactionType.purchase,
                     balanceAfter := 25 }],
        payments := [], installments := [] }).2.2
      { paymentType := PaymentType.immediate, paymentMethod := PaymentMethod.credits,
        installmentCount := none, txnId := "t" }
      rfl rfl rfl (by norm_num [ledgerBalance]) (by simp)
    simpa [ledgerBalance] using h

/-- C10: cancelling a cancellable credits-paid booking leaves is_paid
true, leaves every Payment row and every Installment row unchanged, and
writes only the booking status and one appended refund ledger row. -/
theorem cancel_booking_frame (st : PayState)
    (hs : ¬(st.booking.status = BookingStatus.completed ∨
            st.booking.status = BookingStatus.cancelled))
    (hm : st.booking.paymentMethod = PaymentMethod.credits)
    (hp : st.booking.isPaid = true) :
    (cancel_booking_view st).2.booking.isPaid = true ∧
    (cancel_booking_view st).2.payments = st.payments ∧
    (cancel_booking_view st).2.installments = st.installments ∧
    (cancel_booking_view st).2.booking =
      { st.booking with status := BookingStatus.cancelled } ∧
    (cancel_booking_view st).2.ledger = st.ledger ++
      [{ amount := (st.booking.creditsRequired : ℤ),
         transactionType := TransactionType.refund,
         balanceAfter := ledgerBalance st.ledger + (st.booking.creditsRequired : ℤ) }] ∧
    (cancel_booking_view st).2.bookingId = st.bookingId := by
  simp [cancel_booking_view, hs, hm, hp]

/-- Witness for cancel_booking_frame: the concrete paid credits booking of
the cancellation scenario keeps its payment row and is_paid flag. -/
theorem cancel_booking_frame_witness :
    (cancel_booking_view
        { bookingId := 1,
          booking := { status := BookingStatus.confirmed, totalAmount := 40,
                       paymentMethod := PaymentMethod.credits, isPaid := true,
                       creditsRequired := 10 },
          ledger := [],
          payments := [{ bookingId := 1, amount := 40,
                         paymentType := PaymentType.immediate,
                         paymentMethod := PaymentMethod.credits,
                         status := PaymentStatus.completed,
                         transactionId := "", gatewayResponse := "" }],
          installments := [] }).2.booking.isPaid = true ∧
    (cancel_booking_view
        { bookingId := 1,
          booking := { status := BookingStatus.confirmed, totalAmount := 40,
                       paymentMethod := PaymentMethod.credits, isPaid := true,
                       creditsRequired := 10 },
          ledger := [],
          payments := [{ bookingId := 1, amount := 40,
                         paymentType := PaymentType.immediate,
                         paymentMethod := PaymentMethod.credits,
                         status := PaymentStatus.completed,
                         transactionId := "", gatewayResponse := "" }],
          installments := [] }).2.payments =
      [{ bookingId := 1, amount := 40,
         paymentType := PaymentType.immediate,
         paymentMethod := PaymentMethod.credits,
         status := PaymentStatus.completed,
         transactionId := "", gatewayResponse := "" }] := by
  have h := cancel_booking_frame
    { bookingId := 1,
      booking := { status := BookingStatus.confirmed, totalAmount := 40,
                   paymentMethod := PaymentMethod.credits, isPaid := true,
                   creditsRequired := 10 },
      ledger := [],
      payments := [{ bookingId := 1, amount := 40,
                     paymentType := PaymentType.immediate,
                     paymentMethod := PaymentMethod.credits,
                     status := PaymentStatus.completed,
                     transactionId := "", gatewayResponse := "" }],
      installments := [] }
    (by simp) rfl rfl
  exact ⟨h.1, h.2.1⟩

/-- Counterexample for the claim that refunding an already refunded
payment fails with AlreadyRefunded: in create_refund
(services/stripe_views.py) the not-completed check runs first, so a
refunded payment is rejected with the generic only-completed error, not
with the already-refunded one. -/
theorem create_refund_refunded_error_tag :
    (create_refund
        { bookingId := 1, amount := 40, paymentType := PaymentType.immediate,
          paymentMethod := PaymentMethod.card, status := PaymentStatus.refunded,
          transactionId := "pi_1", gatewayResponse := "" }
        { status := BookingStatus.cancelled, totalAmount := 40,
          paymentMethod := PaymentMethod.card, isPaid := true, creditsRequired := 0 }
        true).1 = Except.error RefundError.onlyCompleted ∧
    RefundError.onlyCompleted ≠ RefundError.alreadyRefunded := by
  constructor
  · simp [create_refund]
  · simp

/-- C6 (amended): a user-initiated refund succeeds only from status
completed, transitioning the payment to refunded and cascading the
booking to cancelled; on every failure both rows are unchanged; an
already refunded payment fails with AlreadyRefunded in
refund_payment_view, but with the generic only-completed error in
create_refund, whose already-refunded branch is unreachable. -/
theorem refund_spec (p : PaymentRec) (b : BookingRec) (g : Bool) :
    (p.status = PaymentStatus.refunded →
      refund_payment_view p b = (Except.error RefundError.alreadyRefunded, p, b) ∧
      create_refund p b g = (Except.error RefundError.onlyCompleted, p, b)) ∧
    (p.status ≠ PaymentStatus.refunded → p.status ≠ PaymentStatus.completed →
      refund_payment_view p b = (Except.error RefundError.onlyCompleted, p, b) ∧
      create_refund p b g = (Except.error RefundError.onlyCompleted, p, b)) ∧
    (p.status = PaymentStatus.completed →
      refund_payment_view p b =
        (Except.ok (), { p with status := PaymentStatus.refunded },
          { b with status := BookingStatus.cancelled }) ∧
      (g = true →
        create_refund p b g =
          (Except.ok (), { p with status := PaymentStatus.refunded },
            { b with status := BookingStatus.cancelled })) ∧
      (g = false → create_refund p b g = (Except.error RefundError.gatewayError, p, b))) := by
  refine ⟨fun h => ⟨?_, ?_⟩, fun h1 h2 => ⟨?_, ?_⟩, fun h => ⟨?_, fun hg => ?_, fun hg => ?_⟩⟩
  · simp [refund_payment_view, h]
  · simp [create_refund, h]
  · simp [refund_payment_view, h1, h2]
  · simp [create_refund, h2]
  · have hr : p.status ≠ PaymentStatus.refunded := by simp [h]
    simp [refund_payment_view, h, hr]
  · have hr : p.status ≠ PaymentStatus.refunded := by simp [h]
    simp [create_refund, h, hr, hg]
  · simp [create_refund, h, hg]

/-- Witness for refund_spec: a completed card payment is refunded and its
booking cancelled, and a second refund attempt fails with
AlreadyRefunded. -/
theorem refund_spec_witness :
    refund_payment_view
      { bookingId := 1, amount := 40, paymentType := PaymentType.immediate,
        paymentMethod := PaymentMethod.card, status := PaymentStatus.completed,
        transactionId := "pi_1", gatewayResponse := "" }
      { status := BookingStatus.confirmed, totalAmount := 40,
        paymentMethod := PaymentMethod.card, isPaid := true, creditsRequired := 0 } =
    (Except.ok (),
      { bookingId := 1, amount := 40, paymentType := PaymentType.immediate,
        paymentMethod := PaymentMethod.card, status := PaymentStatus.refunded,
        transactionId := "pi_1", gatewayResponse := "" },
      { status := BookingStatus.cancelled, totalAmount := 40,
        paymentMethod := PaymentMethod.card, isPaid := true, creditsRequired := 0 }) ∧
    refund_payment_view
      { bookingId := 1, amount := 40, paymentType := PaymentType.immediate,
        paymentMethod := PaymentMethod.card, status := PaymentStatus.refunded,
        transactionId := "pi_1", gatewayResponse := "" }
      { status := BookingStatus.cancelled, totalAmount := 40,
        paymentMethod := PaymentMethod.card, isPaid := true, creditsRequired := 0 } =
    (Except.error RefundError.alreadyRefunded,
      { bookingId := 1, amount := 40, paymentType := PaymentType.immediate,
        paymentMethod := PaymentMethod.card, status := PaymentStatus.refunded,
        transactionId := "pi_1", gatewayResponse := "" },
      { status := BookingStatus.cancelled, totalAmount := 40,
        paymentMethod := PaymentMethod.card, isPaid := true, creditsRequired := 0 }) := by
  constructor
  · exact ((refund_spec
      { bookingId := 1, amount := 40, paymentType := PaymentType.immediate,
        paymentMethod := PaymentMethod.card, status := PaymentStatus.completed,
        transactionId := "pi_1", gatewayResponse := "" }
      { status := BookingStatus.confirmed, totalAmount := 40,
        paymentMethod := PaymentMethod.card, isPaid := true, creditsRequired := 0 }
      true).2.2 rfl).1
  · exact ((refund_spec
      { bookingId := 1, amount := 40, paymentType := PaymentType.immediate,
        paymentMethod := PaymentMethod.card, status := PaymentStatus.refunded,
        transactionId := "pi_1", gatewayResponse := "" }
      { status := BookingStatus.cancelled, totalAmount := 40,
        paymentMethod := PaymentMethod.card, isPaid := true, creditsRequired := 0 }
      true).1 rfl).1

/-- C8: review creation fails with BookingNotCompleted on an uncompleted
booking and with DuplicateReview on an already reviewed one, inserting
nothing in either case; a successful creation appends the review and sets
the provider rating to the arithmetic mean of the ratings of all reviews
of the provider's services, rounded to 2 decimals. -/
theorem review_creation_spec (st : ReviewState) (r : ℤ) :
    (st.booking.status ≠ BookingStatus.completed →
      create_booking_review_view st r = (Except.error ReviewError.bookingNotCompleted, st)) ∧
    (st.booking.status = BookingStatus.completed → st.hasReview = true →
      create_booking_review_view st r = (Except.error ReviewError.duplicateReview, st)) ∧
    (st.booking.status = BookingStatus.completed → st.hasReview = false →
      1 ≤ r → r ≤ 5 →
      create_booking_review_view st r =
        (Except.ok (),
          { st with
              hasReview := true,
              providerRatings := st.providerRatings ++ [r],
              profile := { st.profile with
                rating := roundTo2
                  (((st.providerRatings ++ [r]).sum : ℚ) /
                    ((st.providerRatings.length + 1 : ℕ) : ℚ)) } })) := by
  refine ⟨fun h => by simp [create_booking_review_view, h],
    fun h hr => by simp [create_booking_review_view, h, hr],
    fun h hr h1 h5 => ?_⟩
  have hnz : ¬(r = 0 ∨ ¬(1 ≤ r ∧ r ≤ 5)) := by
    push_neg
    exact ⟨by omega, h1, h5⟩
  simp only [create_booking_review_view, h, hr, hnz]
  simp [update_rating, ReviewState.mk.injEq, ProviderProfileRec.mk.injEq]

/-- Witness for review_creation_spec: a completed, unreviewed booking
whose provider already has one 4-star review receives a 5-star review;
the provider rating becomes round((4+5)/2, 2) = 4.5. -/
theorem review_creation_spec_witness :
    (create_booking_review_view
        { booking := { status := BookingStatus.completed, totalAmount := 40,
                       paymentMethod := PaymentMethod.card, isPaid := true,
                       creditsRequired := 0 },
          hasReview := false,
          providerRatings := [4],
          profile := { rating := 4, totalEarnings := 40, jobsCompleted := 1 } } 5).1 =
      Except.ok () ∧
    (create_booking_review_view
        { booking := { status := BookingStatus.completed, totalAmount := 40,
                       paymentMethod := PaymentMethod.card, isPaid := true,
                       creditsRequired := 0 },
          hasReview := false,
          providerRatings := [4],
          profile := { rating := 4, totalEarnings := 40, jobsCompleted := 1 } } 5).2.profile.rating
      = 9 / 2 := by
  have h := (review_creation_spec
    { booking := { status := BookingStatus.completed, totalAmount := 40,
                   paymentMethod := PaymentMethod.card, isPaid := true,
                   creditsRequired := 0 },
      hasReview := false,
      providerRatings := [4],
      profile := { rating := 4, totalEarnings := 40, jobsCompleted := 1 } } 5).2.2
    rfl rfl (by norm_num) (by norm_num)
  rw [h]
  refine ⟨rfl, ?_⟩
  show roundTo2 (((9 : ℤ) : ℚ) / ((2 : ℕ) : ℚ)) = 9 / 2
  rw [roundTo2, roundHalfEven]
  norm_num

/-- The empty ledger satisfies the prefix-sum invariant. -/
theorem ledgerInv_nil : ledgerInv [] := by
  intro i
  exact absurd i.2 (by simp)

/-- Appending a row whose balance_after snapshots the current balance
plus its amount preserves the prefix-sum invariant. -/
theorem ledgerInv_concat (l : List CreditRow) (x : CreditRow)
    (h : ledgerInv l) (hx : x.balanceAfter = ledgerBalance l + x.amount) :
    ledgerInv (l ++ [x]) := by
  intro i
  have hlen : (l ++ [x]).length = l.length + 1 := by simp
  rcases lt_or_ge (i : ℕ) l.length with hi | hi
  · have h1 : (l ++ [x]).get i = l.get ⟨i, hi⟩ := by
      simp only [List.get_eq_getElem]
      exact List.getElem_append_left hi
    have h2 : (l ++ [x]).take ((i : ℕ) + 1) = l.take ((i : ℕ) + 1) := by
      rw [List.take_append_eq_append_take]
      have h0 : ((i : ℕ) + 1) - l.length = 0 := by omega
      simp [h0]
    rw [h1, h2]
    exact h ⟨i, hi⟩
  · have hi2 : (i : ℕ) = l.length := by
      have := i.2
      omega
    have h1 : (l ++ [x]).get i = x := by
      rw [List.get_eq_getElem]
      rw [List.getElem_append_right (by omega)]
      simp [hi2]
    have h2 : (l ++ [x]).take ((i : ℕ) + 1) = l ++ [x] := by
      apply List.take_of_length_le
      omega
    rw [h1, h2, hx]
    simp [ledgerBalance]

/-- Every ledger-touching request either leaves the ledger alone or
appends one row snapshotting the current balance plus its amount. -/
theorem applyOp_ledger (st : PayState) (op : LedgerOp) :
    (applyOp st op).ledger = st.ledger ∨
    ∃ x : CreditRow, x.balanceAfter = ledgerBalance st.ledger + x.amount ∧
      (applyOp st op).ledger = st.ledger ++ [x] := by
  cases op with
  | purchase a =>
    by_cases ha : a = 0 ∨ a ≤ 0
    · left
      simp [applyOp, purchase_credits_view, ha]
    · right
      refine ⟨{ amount := a, transactionType := TransactionType.purchase,
                balanceAfter := ledgerBalance st.ledger + a }, rfl, ?_⟩
      simp [applyOp, purchase_credits_view, ha]
  | pay req =>
    by_cases hp : st.booking.isPaid
    · left
      simp [applyOp, process_payment_view, hp]
    · by_cases hm : req.paymentMethod = PaymentMethod.credits
      · by_cases hb : ledgerBalance st.ledger < (st.booking.creditsRequired : ℤ)
        · left
          simp [applyOp, process_payment_view, hp, hm, hb]
        · right
          refine ⟨{ amount := -(st.booking.creditsRequired : ℤ),
                    transactionType := TransactionType.used,
                    balanceAfter :=
                      ledgerBalance st.ledger - (st.booking.creditsRequired : ℤ) },
            by simp [sub_eq_add_neg], ?_⟩
          simp [applyOp, process_payment_view, hp, hm, hb]
      · by_cases ht : req.paymentType = PaymentType.installment
        · left
          simp [applyOp, process_payment_view, hp, hm, ht]
        · left
          simp [applyOp, process_payment_view, hp, hm, ht]
  | cancel =>
    by_cases hs : st.booking.status = BookingStatus.completed ∨
        st.booking.status = BookingStatus.cancelled
    · left
      simp [applyOp, cancel_booking_view, hs]
    · by_cases hc : st.booking.paymentMethod = PaymentMethod.credits ∧ st.booking.isPaid
      · right
        refine ⟨{ amount := (st.booking.creditsRequired : ℤ),
                  transactionType := TransactionType.refund,
                  balanceAfter := ledgerBalance st.ledger + (st.booking.creditsRequired : ℤ) },
          rfl, ?_⟩
        simp only [applyOp, cancel_booking_view, if_neg hs]
        rw [if_pos hc]
      · left
        simp only [applyOp, cancel_booking_view, if_neg hs]
        rw [if_neg hc]

/-- C7: along every sequence of credits purchases, payment requests and
cancellations, the ledger only grows by appended rows (no existing row
is mutated), and starting from an empty ledger every stored
balance_after equals the prefix sum of the amounts up to and including
its row. -/
theorem credit_ledger_prefix_sums (ops : List LedgerOp) :
    (∀ st : PayState, ∃ tail, (applyOps st ops).ledger = st.ledger ++ tail) ∧
    (∀ st : PayState, ledgerInv st.ledger → ledgerInv (applyOps st ops).ledger) ∧
    (∀ bid : ℕ, ∀ b : BookingRec, ∀ ps : List PaymentRec, ∀ ins : List InstallmentRec,
      ledgerInv (applyOps
        { bookingId := bid, booking := b, ledger := [],
          payments := ps, installments := ins } ops).ledger) := by
  induction ops with
  | nil =>
    refine ⟨fun st => ⟨[], by simp [applyOps]⟩, fun st h => h, fun bid b ps ins => ?_⟩
    exact ledgerInv_nil
  | cons op ops ih =>
    have hstep : ∀ st : PayState, applyOps st (op :: ops) = applyOps (applyOp st op) ops :=
      fun st => rfl
    refine ⟨fun st => ?_, fun st h => ?_, fun bid b ps ins => ?_⟩
    · rcases ih.1 (applyOp st op) with ⟨tail, htail⟩
      rcases applyOp_ledger st op with h0 | ⟨x, _, hx⟩
      · exact ⟨tail, by rw [hstep, htail, h0]⟩
      · exact ⟨[x] ++ tail, by rw [hstep, htail, hx, List.append_assoc]⟩
    · rw [hstep]
      apply ih.2.1
      rcases applyOp_ledger st op with h0 | ⟨x, hx, hx2⟩
      · rw [h0]; exact h
      · rw [hx2]; exact ledgerInv_concat st.ledger x h hx
    · rw [hstep]
      apply ih.2.1
      rcases applyOp_ledger
        { bookingId := bid, booking := b, ledger := [], payments := ps, installments := ins }
        op with h0 | ⟨x, hx, hx2⟩
      · rw [h0]; exact ledgerInv_nil
      · rw [hx2]; exact ledgerInv_concat [] x ledgerInv_nil hx

/-- Witness for credit_ledger_prefix_sums: a purchase of 25 followed by a
credits payment of 10 and a cancellation refund of 10 on an empty ledger
yields balance_after snapshots 25, 15, 25, satisfying the invariant. -/
theorem credit_ledger_prefix_sums_witness :
    ledgerInv (applyOps
      { bookingId := 1,
        booking := { status := BookingStatus.pending, totalAmount := 40,
                     paymentMethod := PaymentMethod.credits, isPaid := false,
                     creditsRequired := 10 },
        ledger := [], payments := [], installments := [] }
      [LedgerOp.purchase 25,
       LedgerOp.pay { paymentType := PaymentType.immediate,
                      paymentMethod := PaymentMethod.credits,
                      installmentCount := none, txnId := "t" },
       LedgerOp.cancel]).ledger ∧
    (∃ tail, (applyOps
      { bookingId := 1,
        booking := { status := BookingStatus.pending, totalAmount := 40,
                     paymentMethod := PaymentMethod.credits, isPaid := false,
                     creditsRequired := 10 },
        ledger := [], payments := [], installments := [] }
      [LedgerOp.purchase 25,
       LedgerOp.pay { paymentType := PaymentType.immediate,
                      paymentMethod := PaymentMethod.credits,
                      installmentCount := none, txnId := "t" },
       LedgerOp.cancel]).ledger = [] ++ tail) :=
  ⟨(credit_ledger_prefix_sums _).2.2 1 _ [] [],
    (credit_ledger_prefix_sums _).1 _⟩

/-- markCompleted keeps the transaction id and the booking link. -/
theorem markCompleted_ids (intentId : String) (q : PaymentRec) :
    (markCompleted intentId q).transactionId = q.transactionId ∧
    (markCompleted intentId q).bookingId = q.bookingId := by
  unfold markCompleted
  split <;> exact ⟨rfl, rfl⟩

/-- markCompleted is idempotent. -/
theorem markCompleted_idem (intentId : String) (q : PaymentRec) :
    markCompleted intentId (markCompleted intentId q) = markCompleted intentId q := by
  unfold markCompleted
  split <;> simp_all

/-- Filtering by transaction id commutes with the payment writes. -/
theorem filter_markCompleted (intentId : String) (l : List PaymentRec) :
    (l.map (markCompleted intentId)).filter (fun p => p.transactionId = intentId) =
      (l.filter (fun p => p.transactionId = intentId)).map (markCompleted intentId) := by
  induction l with
  | nil => rfl
  | cons q l ih =>
    by_cases hq : q.transactionId = intentId
    · simp only [List.map_cons, List.filter_cons]
      rw [(markCompleted_ids intentId q).1]
      simp [hq, ih]
    · simp only [List.map_cons, List.filter_cons]
      rw [(markCompleted_ids intentId q).1]
      simp [hq, ih]

/-- Applying the booking writes twice under the same key is the same as
applying them once. -/
theorem updateBooking_confirmPaid_idem (bs : List (ℕ × BookingRec)) (i : ℕ) :
    updateBooking (updateBooking bs i confirmPaid) i confirmPaid =
      updateBooking bs i confirmPaid := by
  unfold updateBooking
  rw [List.map_map]
  apply List.map_congr_left
  intro kb _
  by_cases hk : kb.1 = i
  · simp [hk, confirmPaid]
  · simp [hk]

/-- Case equation of the handler: no matching payment, no write. -/
theorem handle_succeeded_of_none (st : GatewayState) (intentId : String)
    (hh : (matchingPayments st intentId).head? = none) :
    handle_payment_intent_succeeded st intentId = st := by
  unfold handle_payment_intent_succeeded
  rw [hh]

/-- Case equation of the handler: a unique matching payment. -/
theorem handle_succeeded_of_unique (st : GatewayState) (intentId : String) (p : PaymentRec)
    (hh : (matchingPayments st intentId).head? = some p)
    (hlen : (matchingPayments st intentId).length = 1) :
    handle_payment_intent_succeeded st intentId =
      { payments := st.payments.map (markCompleted intentId),
        bookings := updateBooking st.bookings p.bookingId confirmPaid } := by
  unfold handle_payment_intent_succeeded
  rw [hh]
  simp [hlen]

/-- Case equation of the handler: several matching payments, the
Payment.objects.get call raises before any write. -/
theorem handle_succeeded_of_multi (st : GatewayState) (intentId : String) (p : PaymentRec)
    (hh : (matchingPayments st intentId).head? = some p)
    (hlen : ¬(matchingPayments st intentId).length = 1) :
    handle_payment_intent_succeeded st intentId = st := by
  unfold handle_payment_intent_succeeded
  rw [hh]
  simp [hlen]

/-- Replaying a payment_intent.succeeded event is a no-op: the handler is
idempotent on every state. -/
theorem handle_succeeded_idem (st : GatewayState) (intentId : String) :
    handle_payment_intent_succeeded (handle_payment_intent_succeeded st intentId) intentId =
      handle_payment_intent_succeeded st intentId := by
  rcases hh : (matchingPayments st intentId).head? with _ | p
  · rw [handle_succeeded_of_none st intentId hh]
    exact handle_succeeded_of_none st intentId hh
  · by_cases hlen : (matchingPayments st intentId).length = 1
    · have hst := handle_succeeded_of_unique st intentId p hh hlen
      have hm : matchingPayments (handle_payment_intent_succeeded st intentId) intentId =
          (matchingPayments st intentId).map (markCompleted intentId) := by
        rw [hst]
        unfold matchingPayments
        exact filter_markCompleted intentId st.payments
      have hh2 : (matchingPayments (handle_payment_intent_succeeded st intentId)
          intentId).head? = some (markCompleted intentId p) := by
        rw [hm, List.head?_map, hh]
        rfl
      have hlen2 : (matchingPayments (handle_payment_intent_succeeded st intentId)
          intentId).length = 1 := by
        rw [hm, List.length_map]
        exact hlen
      rw [handle_succeeded_of_unique _ intentId _ hh2 hlen2]
      rw [hst]
      simp only
      rw [List.map_map]
      have hcomp : markCompleted intentId ∘ markCompleted intentId = markCompleted intentId := by
        funext q
        exact markCompleted_idem intentId q
      rw [hcomp, (markCompleted_ids intentId p).2, updateBooking_confirmPaid_idem]
    · rw [handle_succeeded_of_multi st intentId p hh hlen]
      exact handle_succeeded_of_multi st intentId p hh hlen

/-- C5 (amended): on a succeeded event whose intent id matches exactly one
payment, the handler completes that payment (recording the payload) and
marks its booking paid and confirmed regardless of the booking's previous
status; replaying the same event is a no-op that raises no error. -/
theorem webhook_succeeded_spec (st : GatewayState) (intentId : String) (p : PaymentRec)
    (hh : (matchingPayments st intentId).head? = some p)
    (hlen : (matchingPayments st intentId).length = 1) :
    (handle_payment_intent_succeeded st intentId).payments =
      st.payments.map (markCompleted intentId) ∧
    (handle_payment_intent_succeeded st intentId).bookings =
      updateBooking st.bookings p.bookingId confirmPaid ∧
    handle_payment_intent_succeeded (handle_payment_intent_succeeded st intentId) intentId =
      handle_payment_intent_succeeded st intentId := by
  have hst : handle_payment_intent_succeeded st intentId =
      { payments := st.payments.map (markCompleted intentId),
        bookings := updateBooking st.bookings p.bookingId confirmPaid } := by
    unfold handle_payment_intent_succeeded
    rw [hh]
    simp [hlen]
  exact ⟨by rw [hst], by rw [hst], handle_succeeded_idem st intentId⟩

/-- Witness for webhook_succeeded_spec: one processing card payment with
intent id pi_1 on an ongoing booking. -/
theorem webhook_succeeded_spec_witness :
    (handle_payment_intent_succeeded
        { payments := [{ bookingId := 7, amount := 40,
                         paymentType := PaymentType.immediate,
                         paymentMethod := PaymentMethod.card,
                         status := PaymentStatus.processing,
                         transactionId := "pi_1", gatewayResponse := "" }],
          bookings := [(7, { status := BookingStatus.ongoing, totalAmount := 40,
                             paymentMethod := PaymentMethod.card, isPaid := false,
                             creditsRequired := 0 })] } "pi_1").payments =
      [{ bookingId := 7, amount := 40,
         paymentType := PaymentType.immediate,
         paymentMethod := PaymentMethod.card,
         status := PaymentStatus.processing,
         transactionId := "pi_1", gatewayResponse := "" }].map (markCompleted "pi_1") ∧
    (handle_payment_intent_succeeded
        { payments := [{ bookingId := 7, amount := 40,
                         paymentType := PaymentType.immediate,
                         paymentMethod := PaymentMethod.card,
                         status := PaymentStatus.processing,
                         transactionId := "pi_1", gatewayResponse := "" }],
          bookings := [(7, { status := BookingStatus.ongoing, totalAmount := 40,
                             paymentMethod := PaymentMethod.card, isPaid := false,
                             creditsRequired := 0 })] } "pi_1").bookings =
      updateBooking
        [(7, { status := BookingStatus.ongoing, totalAmount := 40,
               paymentMethod := PaymentMethod.card, isPaid := false,
               creditsRequired := 0 })] 7 confirmPaid := by
  have h := webhook_succeeded_spec
    { payments := [{ bookingId := 7, amount := 40,
                     paymentType := PaymentType.immediate,
                     paymentMethod := PaymentMethod.card,
                     status := PaymentStatus.processing,
                     transactionId := "pi_1", gatewayResponse := "" }],
      bookings := [(7, { status := BookingStatus.ongoing, totalAmount := 40,
                         paymentMethod := PaymentMethod.card, isPaid := false,
                         creditsRequired := 0 })] } "pi_1"
    { bookingId := 7, amount := 40,
      paymentType := PaymentType.immediate,
      paymentMethod := PaymentMethod.card,
      status := PaymentStatus.processing,
      transactionId := "pi_1", gatewayResponse := "" }
    (by simp [matchingPayments]) (by simp [matchingPayments])
  exact ⟨h.1, h.2.1⟩

/-- Counterexample for the claim that the succeeded handler sets the
booking status to confirmed only when the booking is still pending: on an
ongoing booking the handler still rewrites the status to confirmed. -/
theorem webhook_confirms_nonpending :
    (handle_payment_intent_succeeded
        { payments := [{ bookingId := 7, amount := 40,
                         paymentType := PaymentType.immediate,
                         paymentMethod := PaymentMethod.card,
                         status := PaymentStatus.processing,
                         transactionId := "pi_1", gatewayResponse := "" }],
          bookings := [(7, { status := BookingStatus.ongoing, totalAmount := 40,
                             paymentMethod := PaymentMethod.card, isPaid := false,
                             creditsRequired := 0 })] } "pi_1").bookings =
      [(7, { status := BookingStatus.confirmed, totalAmount := 40,
             paymentMethod := PaymentMethod.card, isPaid := true,
             creditsRequired := 0 })] ∧
    BookingStatus.ongoing ≠ BookingStatus.confirmed := by
  constructor
  · simp [handle_payment_intent_succeeded, matchingPayments, updateBooking, confirmPaid]
  · simp

/-- C1 failing run: accept makes the 50-unit booking confirmed; a first
completed update pays the provider 50; a second completed update on the
already completed booking pays another 50 (total 100, jobs_completed 2),
and a further pending update moves the booking out of the terminal
completed state.  update_booking_status_view guards neither the current
status nor repeated completion. -/
theorem update_booking_status_double_complete :
    (update_booking_status_view
      (update_booking_status_view
        (accept_job_view
          { booking := { status := BookingStatus.pending, totalAmount := 50,
                         paymentMethod := PaymentMethod.card, isPaid := false,
                         creditsRequired := 0 },
            profile := { rating := 0, totalEarnings := 0, jobsCompleted := 0 } }).2
        BookingStatus.completed)
      BookingStatus.completed).profile.totalEarnings = 100 ∧
    (update_booking_status_view
      (update_booking_status_view
        (accept_job_view
          { booking := { status := BookingStatus.pending, totalAmount := 50,
                         paymentMethod := PaymentMethod.card, isPaid := false,
                         creditsRequired := 0 },
            profile := { rating := 0, totalEarnings := 0, jobsCompleted := 0 } }).2
        BookingStatus.completed)
      BookingStatus.completed).profile.jobsCompleted = 2 ∧
    (update_booking_status_view
      (accept_job_view
        { booking := { status := BookingStatus.pending, totalAmount := 50,
                       paymentMethod := PaymentMethod.card, isPaid := false,
                       creditsRequired := 0 },
          profile := { rating := 0, totalEarnings := 0, jobsCompleted := 0 } }).2
      BookingStatus.completed).booking.status = BookingStatus.completed ∧
    (update_booking_status_view
      (update_booking_status_view
        (accept_job_view
          { booking := { status := BookingStatus.pending, totalAmount := 50,
                         paymentMethod := PaymentMethod.card, isPaid := false,
                         creditsRequired := 0 },
            profile := { rating := 0, totalEarnings := 0, jobsCompleted := 0 } }).2
        BookingStatus.completed)
      BookingStatus.pending).booking.status = BookingStatus.pending := by
  refine ⟨?_, ?_, ?_, ?_⟩ <;>
    norm_num [accept_job_view, update_booking_status_view]

/-- Adjusted exponent of 100 / 3 is 2 (two integer digits). -/
theorem decExp_100_3 : decExp 100 3 = 2 := by
  have h1 : ((100 : ℚ).num * (((3 : ℚ).den : ℕ) : ℤ)).natAbs = 100 := by norm_num
  have h2 : ((((100 : ℚ).den : ℕ) : ℤ) * (3 : ℚ).num).natAbs = 3 := by norm_num
  unfold decExp
  rw [h1, h2]
  have d1 : digits10 100 = 3 := by decide
  have d2 : digits10 3 = 1 := by decide
  rw [d1, d2]
  have he : ((3 : ℕ) : ℤ) - ((1 : ℕ) : ℤ) = 2 := by norm_num
  rw [he]
  rw [if_pos]
  rw [abs_of_pos (by norm_num)]
  norm_num

/-- The Decimal quotient 100 / 3: twenty-eight threes, value
33.33...33, strictly below one third of 100. -/
theorem pyDecDiv_100_3 :
    pyDecDiv 100 3 = 3333333333333333333333333333 / 100000000000000000000000000 := by
  unfold pyDecDiv
  rw [if_neg (by norm_num)]
  rw [decExp_100_3]
  have he : (28 : ℤ) - 2 = ((26 : ℕ) : ℤ) := by norm_num
  rw [he, zpow_natCast]
  have hmul : (100 : ℚ) / 3 * (10 : ℚ) ^ (26 : ℕ) = 10 ^ 28 / 3 := by
    norm_num
  rw [hmul]
  have hfloor : ⌊(10 ^ 28 / 3 : ℚ)⌋ = 3333333333333333333333333333 := by
    rw [Int.floor_eq_iff]
    constructor <;> norm_num
  unfold roundHalfEven
  simp only [hfloor]
  rw [if_pos]
  · norm_num
  · push_cast
    norm_num

/-- Counterexample for the claim that the three installments of a 100.00
booking sum to exactly 100.00 with the last absorbing the rounding
remainder: the code gives every installment the same Decimal quotient
100 / 3 = 33.33...33, so the three amounts sum to 99.99...99. -/
theorem installment_sum_not_total :
    ¬ ((((process_payment_view
        { bookingId := 1,
          booking := { status := BookingStatus.pending, totalAmount := 100,
                       paymentMethod := PaymentMethod.card, isPaid := false,
                       creditsRequired := 0 },
          ledger := [], payments := [], installments := [] }
        { paymentType := PaymentType.installment, paymentMethod := PaymentMethod.card,
          installmentCount := some 3, txnId := "t" }).2.installments).map
      (fun r => r.amount)).sum = 100) := by
  have hrun : (process_payment_view
      { bookingId := 1,
        booking := { status := BookingStatus.pending, totalAmount := 100,
                     paymentMethod := PaymentMethod.card, isPaid := false,
                     creditsRequired := 0 },
        ledger := [], payments := [], installments := [] }
      { paymentType := PaymentType.installment, paymentMethod := PaymentMethod.card,
        installmentCount := some 3, txnId := "t" }).2.installments =
      (List.range 3).map (fun i =>
        ({ installmentNumber := i + 1,
           amount := pyDecDiv 100 3,
           dueDays := 30 * (i + 1),
           status := InstallmentStatus.pending } : InstallmentRec)) := by
    simp [process_payment_view]
  rw [hrun]
  rw [pyDecDiv_100_3]
  intro hsum
  rw [show List.range 3 = [0, 1, 2] from rfl] at hsum
  simp only [List.map_cons, List.map_nil, List.sum_cons, List.sum_nil] at hsum
  norm_num at hsum

/-- C2 (amended): an installment payment request with installment_count
creates exactly installment_count Installment rows, numbered contiguously
from 1, every one carrying the same amount, the Decimal quotient
total_amount / installment_count; their sum is installment_count times
that quotient, which differs from total_amount whenever the quotient is
inexact (no installment absorbs the remainder). -/
theorem installment_rows_spec (st : PayState) (req : PayReq) (count : ℕ)
    (hp : st.booking.isPaid = false)
    (hm : req.paymentMethod ≠ PaymentMethod.credits)
    (ht : req.paymentType = PaymentType.installment)
    (hc : req.installmentCount = some count) :
    (process_payment_view st req).1 = Except.ok () ∧
    (process_payment_view st req).2.installments = st.installments ++
      (List.range count).map (fun i =>
        ({ installmentNumber := i + 1,
           amount := pyDecDiv st.booking.totalAmount (count : ℚ),
           dueDays := 30 * (i + 1),
           status := InstallmentStatus.pending } : InstallmentRec)) ∧
    ((List.range count).map (fun i =>
        ({ installmentNumber := i + 1,
           amount := pyDecDiv st.booking.totalAmount (count : ℚ),
           dueDays := 30 * (i + 1),
           status := InstallmentStatus.pending } : InstallmentRec))).length = count ∧
    (((List.range count).map (fun i =>
        ({ installmentNumber := i + 1,
           amount := pyDecDiv st.booking.totalAmount (count : ℚ),
           dueDays := 30 * (i + 1),
           status := InstallmentStatus.pending } : InstallmentRec))).map
      (fun r => r.installmentNumber)) = (List.range count).map (fun i => i + 1) ∧
    (((List.range count).map (fun i =>
        ({ installmentNumber := i + 1,
           amount := pyDecDiv st.booking.totalAmount (count : ℚ),
           dueDays := 30 * (i + 1),
           status := InstallmentStatus.pending } : InstallmentRec))).map
      (fun r => r.amount)).sum = (count : ℚ) * pyDecDiv st.booking.totalAmount (count : ℚ) := by
  refine ⟨?_, ?_, ?_, ?_, ?_⟩
  · simp [process_payment_view, hp, hm, ht, hc]
  · simp [process_payment_view, hp, hm, ht, hc]
  · simp
  · rw [List.map_map]
    rfl
  · rw [List.map_map]
    have hconst : ((fun r : InstallmentRec => r.amount) ∘ (fun i =>
        ({ installmentNumber := i + 1,
           amount := pyDecDiv st.booking.totalAmount (count : ℚ),
           dueDays := 30 * (i + 1),
           status := InstallmentStatus.pending } : InstallmentRec))) =
        (fun _ : ℕ => pyDecDiv st.booking.totalAmount (count : ℚ)) := rfl
    rw [hconst, List.map_const']
    rw [List.sum_replicate]
    simp [nsmul_eq_mul]

/-- Witness for installment_rows_spec: the 100.00 booking split into
three installments of 33.33...33 each, numbered 1, 2, 3, summing to
three times the quotient, that is 99.99...99. -/
theorem installment_rows_spec_witness :
    (process_payment_view
      { bookingId := 1,
        booking := { status := BookingStatus.pending, totalAmount := 100,
                     paymentMethod := PaymentMethod.card, isPaid := false,
                     creditsRequired := 0 },
        ledger := [], payments := [], installments := [] }
      { paymentType := PaymentType.installment, paymentMethod := PaymentMethod.card,
        installmentCount := some 3, txnId := "t" }).1 = Except.ok () ∧
    (((process_payment_view
      { bookingId := 1,
        booking := { status := BookingStatus.pending, totalAmount := 100,
                     paymentMethod := PaymentMethod.card, isPaid := false,
                     creditsRequired := 0 },
        ledger := [], payments := [], installments := [] }
      { paymentType := PaymentType.installment, paymentMethod := PaymentMethod.card,
        installmentCount := some 3, txnId := "t" }).2.installments).map
      (fun r => r.installmentNumber)) = [1, 2, 3] ∧
    (((process_payment_view
      { bookingId := 1,
        booking := { status := BookingStatus.pending, totalAmount := 100,
                     paymentMethod := PaymentMethod.card, isPaid := false,
                     creditsRequired := 0 },
        ledger := [], payments := [], installments := [] }
      { paymentType := PaymentType.installment, paymentMethod := PaymentMethod.card,
        installmentCount := some 3, txnId := "t" }).2.installments).map
      (fun r => r.amount)).sum =
      9999999999999999999999999999 / 100000000000000000000000000 := by
  have h := installment_rows_spec
    { bookingId := 1,
      booking := { status := BookingStatus.pending, totalAmount := 100,
                   paymentMethod := PaymentMethod.card, isPaid := false,
                   creditsRequired := 0 },
      ledger := [], payments := [], installments := [] }
    { paymentType := PaymentType.installment, paymentMethod := PaymentMethod.card,
      installmentCount := some 3, txnId := "t" }
    3 rfl (by simp) rfl rfl
  refine ⟨h.1, ?_, ?_⟩
  · rw [h.2.1]
    simp [List.range_succ]
  · rw [h.2.1]
    simp only [List.nil_append]
    rw [h.2.2.2.2]
    norm_num [pyDecDiv_100_3]
